import Mathlib

/-!
Verification of the three HTTP services of the AI-Video-Knowledge-Extractor
repository (chat_server.py, embedding_server.py, whisper_server.py), as a
shallow embedding: each request handler becomes a pure Lean function over the
parsed request data and an environment recording the outcome of the external
calls it makes (the generation runtime, the embedding model, the HTTP fetch,
the speech-recognition model).
-/

/- ### Python string helpers

Python `s.strip()` removes leading and trailing whitespace; `len(s.split())`
counts maximal whitespace-separated words.  Both are modelled structurally on
the character list of the string. -/

/-- Character list of Python `s.strip()`: drop whitespace from both ends. -/
def pyStripData (s : String) : List Char :=
  ((s.data.dropWhile Char.isWhitespace).reverse.dropWhile Char.isWhitespace).reverse

/-- Python `s.strip()`. -/
def pyStrip (s : String) : String :=
  ⟨pyStripData s⟩

/-- Python truthiness test `not s.strip()`: the string is empty or whitespace-only. -/
def pyStripIsEmpty (s : String) : Bool :=
  (pyStripData s).isEmpty

/-- Helper for `wordCount`: counts words in a character stream; the flag records
whether the previous character was inside a word. -/
def wordCountAux : List Char → Bool → Nat
  | [], _ => 0
  | c :: rest, inWord =>
    if c.isWhitespace then wordCountAux rest false
    else (if inWord then 0 else 1) + wordCountAux rest true

/-- Python `len(s.split())`: number of maximal whitespace-separated words. -/
def wordCount (s : String) : Nat :=
  wordCountAux s.data false

/- ### Chat service (chat_server.py)

The `/chat/completions` handler.  A parsed chat message has optional `role`
and `content` fields, matching `message.get('role', 'user')` and
`message.get('content', '')` in the source. -/

/-- A chat message as parsed from the JSON body; both fields may be absent. -/
structure ChatMessage where
  role : Option String
  content : Option String
deriving DecidableEq

/-- The line a single message contributes to the flattened prompt
(chat_server.py, the role dispatch inside the message loop): role defaults to
"user", content to ""; a role other than system/user/assistant adds nothing. -/
def messageLine (m : ChatMessage) : String :=
  let role := m.role.getD "user"
  let content := m.content.getD ""
  if role = "system" then "System: " ++ content ++ "\n"
  else if role = "user" then "Human: " ++ content ++ "\n"
  else if role = "assistant" then "Assistant: " ++ content ++ "\n"
  else ""

/-- The flattened prompt built by the message loop plus the final cue
(chat_server.py: `prompt += ...` per message, then `prompt += "Assistant: "`). -/
def buildPrompt (messages : List ChatMessage) : String :=
  (messages.foldl (fun acc m => acc ++ messageLine m) "") ++ "Assistant: "

/-- Body of a `/chat/completions` response.  `temperature` and `max_tokens`
are forwarded verbatim into the runtime options and do not affect the
modelled behaviour, so they are omitted. -/
inductive ChatResponse
  | err (status : Nat) (msg : String)
  | completion (role finishReason content : String)
      (promptTokens completionTokens totalTokens : Nat)
deriving DecidableEq

/-- Parsed request body: `data.get('messages', [])` with an absent key folded
into the empty list. -/
structure ChatRequestBody where
  messages : List ChatMessage
deriving DecidableEq

/-- Observable outcome of one `/chat/completions` request: the HTTP response
and the prompt submitted to the generation runtime, if the handler got that
far. -/
structure ChatOutcome where
  response : ChatResponse
  promptSent : Option String
deriving DecidableEq

/-- The `/chat/completions` handler (chat_server.py, `chat_completions`).
`ollamaRunning` is the result of the liveness probe; `generate` maps the
submitted prompt to the runtime's HTTP status and the text extracted from its
reply (`ollama_response.get('response', '')`). -/
def chat_completions (ollamaRunning : Bool) (generate : String → Nat × String)
    (data : Option ChatRequestBody) : ChatOutcome :=
  if !ollamaRunning then
    ⟨.err 500 "Ollama is not running. Please start Ollama first.", none⟩
  else
    match data with
    | none => ⟨.err 400 "No data provided", none⟩
    | some d =>
      if d.messages.isEmpty then ⟨.err 400 "No messages provided", none⟩
      else
        let prompt := buildPrompt d.messages
        let r := generate prompt
        if r.1 ≠ 200 then ⟨.err 500 "Ollama API error", some prompt⟩
        else
          ⟨.completion "assistant" "stop" r.2 (wordCount prompt) (wordCount r.2)
            (wordCount prompt + wordCount r.2), some prompt⟩

/- Specification-side rendering of the flattened prompt, following the words
of the spec: one line per message, labelled by role, concatenated in input
order, with the final "Assistant: " cue appended. -/

/-- Concatenation of a list of strings in order. -/
def concatLines : List String → String
  | [] => ""
  | s :: rest => s ++ concatLines rest

/-- The role-label mapping as the specification states it
(system/user/assistant to "System: "/"Human: "/"Assistant: "). -/
def specRoleLabel (r : String) : String :=
  if r = "system" then "System: "
  else if r = "user" then "Human: "
  else "Assistant: "

/-- One prompt line as the specification describes it: the role label, the
message content, and a trailing newline. -/
def specPromptLine (m : ChatMessage) : String :=
  specRoleLabel (m.role.getD "user") ++ m.content.getD "" ++ "\n"

/-- The flattened prompt as the specification describes it. -/
def specFlattenedPrompt (messages : List ChatMessage) : String :=
  concatLines (messages.map specPromptLine) ++ "Assistant: "

/- Helper lemmas about the prompt construction. -/

theorem foldl_messageLine (l : List ChatMessage) (acc : String) :
    l.foldl (fun a m => a ++ messageLine m) acc =
      acc ++ concatLines (l.map messageLine) := by
  induction l generalizing acc with
  | nil => simp [concatLines]
  | cons m t ih =>
    simp only [List.foldl, List.map, concatLines, ih, String.append_assoc]

theorem messageLine_eq_spec (m : ChatMessage)
    (h : m.role = some "system" ∨ m.role = some "user" ∨ m.role = some "assistant") :
    messageLine m = specPromptLine m := by
  rcases h with h | h | h <;>
    simp [messageLine, specPromptLine, specRoleLabel, h]

theorem buildPrompt_eq_spec (messages : List ChatMessage)
    (h : ∀ m ∈ messages,
      m.role = some "system" ∨ m.role = some "user" ∨ m.role = some "assistant") :
    buildPrompt messages = specFlattenedPrompt messages := by
  unfold buildPrompt specFlattenedPrompt
  rw [foldl_messageLine]
  have hmap : messages.map messageLine = messages.map specPromptLine :=
    List.map_congr_left fun m hm => messageLine_eq_spec m (h m hm)
  rw [hmap]
  simp

/-- C2: for every non-empty messages array accepted by POST /chat/completions
whose roles are all among system/user/assistant, the prompt submitted to the
generation runtime is the concatenation, in input order, of one line per
message labelled by its role (System: / Human: / Assistant: ) with the message
content and a trailing newline, followed by the final cue "Assistant: ". -/
theorem chat_prompt_flattening (gen : String → Nat × String)
    (messages : List ChatMessage) (hne : messages ≠ [])
    (hroles : ∀ m ∈ messages,
      m.role = some "system" ∨ m.role = some "user" ∨ m.role = some "assistant") :
    (chat_completions true gen (some ⟨messages⟩)).promptSent =
      some (specFlattenedPrompt messages) := by
  unfold chat_completions
  have hemp : messages.isEmpty = false := by
    simpa [List.isEmpty_iff] using hne
  simp only [Bool.not_true, Bool.false_eq_true, if_false, hemp]
  split <;> simp [buildPrompt_eq_spec messages hroles]

theorem chat_prompt_flattening_witness :
    (chat_completions true (fun _ => (200, "ok"))
        (some ⟨[⟨some "user", some "hi"⟩]⟩)).promptSent =
      some "Human: hi\nAssistant: " := by
  have h := chat_prompt_flattening (fun _ => (200, "ok"))
    [⟨some "user", some "hi"⟩] (by decide)
    (by intro m hm; simp at hm; subst hm; simp)
  rw [h]
  decide

/-- C9: every successful /chat/completions response carries whitespace-word
token counts (prompt_tokens from the flattened prompt, completion_tokens from
the generated text, total_tokens their sum) and a single choice with role
"assistant" and finish_reason "stop". -/
theorem chat_usage_tokens (gen : String → Nat × String)
    (messages : List ChatMessage) (hne : messages ≠ [])
    (hs : (gen (buildPrompt messages)).1 = 200) :
    (chat_completions true gen (some ⟨messages⟩)).response =
      .completion "assistant" "stop" (gen (buildPrompt messages)).2
        (wordCount (buildPrompt messages))
        (wordCount (gen (buildPrompt messages)).2)
        (wordCount (buildPrompt messages) +
          wordCount (gen (buildPrompt messages)).2) := by
  unfold chat_completions
  have hemp : messages.isEmpty = false := by
    simpa [List.isEmpty_iff] using hne
  simp [hemp, hs]

theorem chat_usage_tokens_witness :
    (chat_completions true (fun _ => (200, "hello world"))
        (some ⟨[⟨some "user", some "hi"⟩]⟩)).response =
      .completion "assistant" "stop" "hello world" 3 2 5 := by
  have h := chat_usage_tokens (fun _ => (200, "hello world"))
    [⟨some "user", some "hi"⟩] (by decide) rfl
  rw [h]
  decide

/-- C10: in the prompt flattening, a message with no role field is rendered
with the "Human: " label; a message whose role is none of system/user/
assistant contributes nothing to the prompt, and a request consisting of such
a message still succeeds. -/
theorem chat_role_fallback_and_drop :
    (∀ c : Option String,
      messageLine ⟨none, c⟩ = "Human: " ++ c.getD "" ++ "\n") ∧
    (∀ (r : String) (c : Option String),
      r ≠ "system" → r ≠ "user" → r ≠ "assistant" →
        messageLine ⟨some r, c⟩ = "") ∧
    (∀ (gen : String → Nat × String) (r : String) (c : Option String),
      r ≠ "system" → r ≠ "user" → r ≠ "assistant" →
      (gen (buildPrompt [⟨some r, c⟩])).1 = 200 →
        (chat_completions true gen (some ⟨[⟨some r, c⟩]⟩)).response =
          .completion "assistant" "stop" (gen (buildPrompt [⟨some r, c⟩])).2
            (wordCount (buildPrompt [⟨some r, c⟩]))
            (wordCount (gen (buildPrompt [⟨some r, c⟩])).2)
            (wordCount (buildPrompt [⟨some r, c⟩]) +
              wordCount (gen (buildPrompt [⟨some r, c⟩])).2)) := by
  refine ⟨?_, ?_, ?_⟩
  · intro c
    simp [messageLine]
  · intro r c h1 h2 h3
    simp [messageLine, h1, h2, h3]
  · intro gen r c h1 h2 h3 hs
    unfold chat_completions
    simp [hs]

theorem chat_role_fallback_and_drop_witness :
    messageLine ⟨none, some "hi"⟩ = "Human: hi\n" ∧
    messageLine ⟨some "tool", some "hi"⟩ = "" ∧
    (chat_completions true (fun _ => (200, "ok"))
        (some ⟨[⟨some "tool", some "x"⟩]⟩)).response =
      .completion "assistant" "stop" "ok" 1 1 2 := by
  refine ⟨?_, ?_, ?_⟩
  · rw [chat_role_fallback_and_drop.1 (some "hi")]
    decide
  · exact chat_role_fallback_and_drop.2.1 "tool" (some "hi")
      (by decide) (by decide) (by decide)
  · have h := chat_role_fallback_and_drop.2.2 (fun _ => (200, "ok"))
      "tool" (some "x") (by decide) (by decide) (by decide) rfl
    rw [h]
    decide

/- ### Embedding service (embedding_server.py)

The `/embed/batch` and `/similarity` handlers.  The loaded sentence-embedding
model is abstracted as a deterministic function `encode : String → List ℝ`;
the source encodes lists of texts in one batched call, which is modelled
element-wise (the library returns one vector per input, in order). -/

/-- The `texts` field of a `/embed/batch` body: absent (or the whole body
absent), present but not a list, or a list of strings. -/
inductive TextsField
  | missing
  | notList
  | list (texts : List String)

/-- Body of a `/embed/batch` response. -/
inductive BatchResponse
  | err (status : Nat) (msg : String)
  | ok (embeddings : List (List ℝ)) (count : Nat) (dimensions : Nat)

/-- HTTP status of a `/embed/batch` response (success responses go out as 200). -/
def BatchResponse.status : BatchResponse → Nat
  | .err s _ => s
  | .ok _ _ _ => 200

/-- `len(embeddings_list[0]) if embeddings_list else 0`. -/
def headDims : List (List ℝ) → Nat
  | [] => 0
  | e :: _ => e.length

/-- The `/embed/batch` handler (embedding_server.py,
`create_batch_embeddings`): requires the model, a `texts` key holding a
non-empty list; drops entries that are empty or whitespace-only
(`text and text.strip()`); rejects if none survive; otherwise encodes the
survivors in order. -/
def create_batch_embeddings (modelLoaded : Bool) (encode : String → List ℝ)
    (field : TextsField) : BatchResponse :=
  if !modelLoaded then .err 500 "Embedding model not loaded"
  else
    match field with
    | .missing => .err 400 "No texts provided"
    | .notList => .err 400 "Invalid texts array"
    | .list texts =>
      if texts.length = 0 then .err 400 "Invalid texts array"
      else
        let valid := texts.filter fun t => !pyStripIsEmpty t
        if valid.length = 0 then .err 400 "No valid texts provided"
        else
          let embs := valid.map encode
          .ok embs embs.length (headDims embs)

theorem length_filter_not_add (p : String → Bool) (l : List String) :
    (l.filter fun t => !p t).length + (l.filter p).length = l.length := by
  induction l with
  | nil => rfl
  | cons x xs ih =>
    by_cases h : p x <;> simp [List.filter, h, ← ih] <;> omega

/-- C3: posting N texts of which k are empty or whitespace-only to
/embed/batch is rejected with HTTP 400 when k = N (also when the field is
missing or not a list); otherwise it returns exactly N−k embedding vectors,
one per surviving input in their relative order, with count N−k. -/
theorem batch_embed_counts (encode : String → List ℝ) (texts : List String) :
    ((texts.filter fun t => pyStripIsEmpty t).length = texts.length →
      (create_batch_embeddings true encode (.list texts)).status = 400) ∧
    ((texts.filter fun t => pyStripIsEmpty t).length ≠ texts.length →
      create_batch_embeddings true encode (.list texts) =
        .ok ((texts.filter fun t => !pyStripIsEmpty t).map encode)
          (texts.length - (texts.filter fun t => pyStripIsEmpty t).length)
          (headDims ((texts.filter fun t => !pyStripIsEmpty t).map encode))) ∧
    (create_batch_embeddings true encode .missing).status = 400 ∧
    (create_batch_embeddings true encode .notList).status = 400 := by
  have hpart := length_filter_not_add (fun t => pyStripIsEmpty t) texts
  refine ⟨?_, ?_, rfl, rfl⟩
  · intro hk
    have hval : (texts.filter fun t => !pyStripIsEmpty t).length = 0 := by omega
    unfold create_batch_embeddings
    by_cases h0 : texts.length = 0 <;>
      simp [h0, hval, BatchResponse.status]
  · intro hk
    have h0 : texts.length ≠ 0 := by
      intro h
      apply hk
      have := List.length_filter_le (fun t => pyStripIsEmpty t) texts
      omega
    have hval : (texts.filter fun t => !pyStripIsEmpty t).length ≠ 0 := by omega
    unfold create_batch_embeddings
    simp [h0, hval]
    omega

theorem batch_embed_counts_witness :
    ((["a", " ", "b"] : List String).filter fun t =>
        pyStripIsEmpty t).length ≠ (["a", " ", "b"] : List String).length ∧
    create_batch_embeddings true (fun _ => [(1 : ℝ)]) (.list ["a", " ", "b"]) =
      .ok [[1], [1]] 2 1 := by
  refine ⟨by decide, ?_⟩
  have h := (batch_embed_counts (fun _ => [(1 : ℝ)]) ["a", " ", "b"]).2.1
    (by decide)
  rw [h]
  rfl

/- ### Similarity endpoint (embedding_server.py, compute_similarity) -/

/-- Parsed `/similarity` body: each text field may be absent. -/
structure SimBody where
  text1 : Option String
  text2 : Option String

/-- Body of a `/similarity` response. -/
inductive SimResponse
  | err (status : Nat) (msg : String)
  | ok (similarity : ℝ)

/-- HTTP status of a `/similarity` response. -/
def SimResponse.status : SimResponse → Nat
  | .err s _ => s
  | .ok _ => 200

/-- `np.dot` on two vectors. -/
def dotList (a b : List ℝ) : ℝ :=
  (List.zipWith (fun x y => x * y) a b).sum

/-- `np.linalg.norm`: the Euclidean norm. -/
noncomputable def normList (v : List ℝ) : ℝ :=
  Real.sqrt (dotList v v)

/-- The `/similarity` handler (embedding_server.py, `compute_similarity`):
requires the model and both text fields; rejects empty-after-strip texts;
otherwise encodes both texts (one batched call, modelled element-wise) and
returns their dot product divided by the product of their Euclidean norms. -/
noncomputable def compute_similarity (modelLoaded : Bool)
    (encode : String → List ℝ) (data : Option SimBody) : SimResponse :=
  if !modelLoaded then .err 500 "Embedding model not loaded"
  else
    match data with
    | none => .err 400 "Both text1 and text2 required"
    | some b =>
      match b.text1, b.text2 with
      | some t1, some t2 =>
        if pyStripIsEmpty t1 || pyStripIsEmpty t2 then
          .err 400 "Empty texts provided"
        else
          .ok (dotList (encode t1) (encode t2) /
            (normList (encode t1) * normList (encode t2)))
      | _, _ => .err 400 "Both text1 and text2 required"

/-- C5: /similarity requires both text1 and text2 present and non-empty after
stripping (otherwise HTTP 400), and on success returns the cosine similarity:
the dot product of the two encoded vectors divided by the product of their
Euclidean norms. -/
theorem similarity_contract (encode : String → List ℝ) (t1 t2 : String) :
    (compute_similarity true encode none).status = 400 ∧
    (compute_similarity true encode (some ⟨none, some t2⟩)).status = 400 ∧
    (compute_similarity true encode (some ⟨some t1, none⟩)).status = 400 ∧
    (pyStripIsEmpty t1 = true ∨ pyStripIsEmpty t2 = true →
      (compute_similarity true encode (some ⟨some t1, some t2⟩)).status = 400) ∧
    (pyStripIsEmpty t1 = false → pyStripIsEmpty t2 = false →
      compute_similarity true encode (some ⟨some t1, some t2⟩) =
        .ok (dotList (encode t1) (encode t2) /
          (normList (encode t1) * normList (encode t2)))) := by
  refine ⟨rfl, rfl, rfl, ?_, ?_⟩
  · intro h
    rcases h with h | h <;>
      simp [compute_similarity, h, SimResponse.status]
  · intro h1 h2
    simp [compute_similarity, h1, h2]

theorem similarity_contract_witness :
    compute_similarity true (fun _ => [(1 : ℝ)])
        (some ⟨some "cat", some "dog"⟩) =
      .ok (dotList [(1 : ℝ)] [(1 : ℝ)] /
        (normList [(1 : ℝ)] * normList [(1 : ℝ)])) := by
  exact (similarity_contract (fun _ => [(1 : ℝ)]) "cat" "dog").2.2.2.2
    (by decide) (by decide)

theorem dotList_self_nonneg (v : List ℝ) : 0 ≤ dotList v v := by
  induction v with
  | nil => simp [dotList]
  | cons x xs ih =>
    have hx : dotList (x :: xs) (x :: xs) = x * x + dotList xs xs := by
      simp [dotList]
    rw [hx]
    exact add_nonneg (mul_self_nonneg x) ih

/-- C6: /similarity with the same non-empty text on both sides returns
exactly 1 whenever the encoded vector is nonzero (its self-dot-product is
nonzero), since the encoding is a fixed deterministic function of the text. -/
theorem similarity_self (encode : String → List ℝ) (t : String)
    (h1 : pyStripIsEmpty t = false)
    (h2 : dotList (encode t) (encode t) ≠ 0) :
    compute_similarity true encode (some ⟨some t, some t⟩) = .ok 1 := by
  have hnn : 0 ≤ dotList (encode t) (encode t) := dotList_self_nonneg _
  simp only [compute_similarity, Bool.not_true, Bool.false_eq_true, if_false,
    h1, Bool.or_self]
  have hsq : normList (encode t) * normList (encode t) =
      dotList (encode t) (encode t) :=
    Real.mul_self_sqrt hnn
  rw [hsq, div_self h2]

theorem similarity_self_witness :
    compute_similarity true (fun _ => [(1 : ℝ)])
        (some ⟨some "cat", some "cat"⟩) = .ok 1 := by
  apply similarity_self (fun _ => [(1 : ℝ)]) "cat" (by decide)
  norm_num [dotList]

/- ### Transcription service (whisper_server.py)

The `/transcribe` handler.  Times are seconds, modelled as rationals.  The
raw model output is a dictionary with a `text` key, an optional `language`
key and an optional `segments` key; the field named `end` in the source is
called `stop` here because `end` is reserved in Lean. -/

/-- A time-stamped segment: text with start/end in seconds. -/
structure WhisperSegment where
  text : String
  start : ℚ
  stop : ℚ
deriving DecidableEq

/-- The raw result returned by the speech-recognition model. -/
structure WhisperResult where
  text : String
  language : Option String
  segments : Option (List WhisperSegment)
deriving DecidableEq

/-- The formatted transcription returned in the `result` field. -/
structure TranscriptionResult where
  text : String
  language : String
  segments : List WhisperSegment
deriving DecidableEq

/-- `transcribe_audio_file` (whisper_server.py): full text, language tag
(defaulting to "unknown"), and segments with stripped text; when the model
result has no `segments` key, one degenerate segment spanning the stripped
transcript with zero start/end. -/
def transcribe_audio_file (r : WhisperResult) : TranscriptionResult :=
  { text := r.text
    language := r.language.getD "unknown"
    segments :=
      match r.segments with
      | some segs => segs.map fun s => ⟨pyStrip s.text, s.start, s.stop⟩
      | none => [⟨pyStrip r.text, 0, 0⟩] }

/-- Outcome of `download_audio_file` (whisper_server.py): on a successful
fetch the body is streamed into a fresh temporary file whose path is
returned; `raise_for_status` raises on a non-success HTTP status before the
temporary file is created. -/
inductive DownloadOutcome
  | file
  | fetchError
deriving DecidableEq

/-- `download_audio_file`: `fetchOk` is whether the HTTP fetch returned a
success status. -/
def download_audio_file (fetchOk : Bool) : DownloadOutcome :=
  if fetchOk then .file else .fetchError

/-- Environment of one `/transcribe` request: whether the model is loaded,
whether the URL fetch succeeds, and what the model call yields (`some r` a
raw result, `none` an exception). -/
structure TranscribeEnv where
  modelLoaded : Bool
  fetchOk : Bool
  whisperOutcome : Option WhisperResult
deriving DecidableEq

/-- Observable outcome of one `/transcribe` request. -/
structure TranscribeOutcome where
  status : Nat
  result : Option TranscriptionResult
  tempCreated : Bool
  tempRemains : Bool
  usedUpload : Bool
  downloadTried : Bool
  modelInvoked : Bool
deriving DecidableEq

/-- Continuation of the `/transcribe` handler after a temporary file has been
created (upload saved, or URL downloaded): the model-not-loaded check returns
500 without any cleanup; otherwise the model runs and the temporary file is
unlinked on both the success and the exception path. -/
def afterTempFile (usedUpload downloadTried : Bool) (env : TranscribeEnv) :
    TranscribeOutcome :=
  if !env.modelLoaded then
    ⟨500, none, true, true, usedUpload, downloadTried, false⟩
  else
    match env.whisperOutcome with
    | some r =>
      ⟨200, some (transcribe_audio_file r), true, false, usedUpload,
        downloadTried, true⟩
    | none => ⟨500, none, true, false, usedUpload, downloadTried, true⟩

/-- The `/transcribe` handler (whisper_server.py, `transcribe`):
`hasAudioFile` is `'audio_file' in request.files`; `hasAudioUrl` is
"the body is JSON, truthy, and contains `audio_url`".  The upload branch is
checked first; with neither source the handler returns 400 before the model
check, any download, and any file creation. -/
def transcribe (hasAudioFile hasAudioUrl : Bool) (env : TranscribeEnv) :
    TranscribeOutcome :=
  if hasAudioFile then afterTempFile true false env
  else if hasAudioUrl then
    match download_audio_file env.fetchOk with
    | .file => afterTempFile false true env
    | .fetchError => ⟨500, none, false, false, false, true, false⟩
  else ⟨400, none, false, false, false, false, false⟩

/-- C8: a successful transcription carries the full transcript text, the
detected language tag (defaulting to "unknown"), and segments with stripped
text and start/end in seconds; with no segment breakdown in the model result,
exactly one degenerate segment holds the stripped transcript with start and
end both 0. -/
theorem transcription_result_shape (r : WhisperResult) :
    (transcribe_audio_file r).text = r.text ∧
    (transcribe_audio_file r).language = r.language.getD "unknown" ∧
    (r.segments = none →
      (transcribe_audio_file r).segments = [⟨pyStrip r.text, 0, 0⟩]) ∧
    (∀ segs, r.segments = some segs →
      (transcribe_audio_file r).segments =
        segs.map fun s => ⟨pyStrip s.text, s.start, s.stop⟩) := by
  refine ⟨rfl, rfl, ?_, ?_⟩
  · intro h
    simp [transcribe_audio_file, h]
  · intro segs h
    simp [transcribe_audio_file, h]

theorem transcription_result_shape_witness :
    (transcribe_audio_file ⟨" hello ", some "en", none⟩).segments =
      [⟨"hello", 0, 0⟩] := by
  have h := (transcription_result_shape ⟨" hello ", some "en", none⟩).2.2.1 rfl
  rw [h]
  decide

/-- C7: a /transcribe request with neither an uploaded audio_file nor an
audio_url is rejected with 400 before any model call, download, or temporary
file creation; when both sources are supplied, the uploaded file takes
priority and the URL is never fetched. -/
theorem transcribe_no_source_and_priority (env : TranscribeEnv)
    (hasUrl : Bool) :
    ((transcribe false false env).status = 400 ∧
      (transcribe false false env).tempCreated = false ∧
      (transcribe false false env).downloadTried = false ∧
      (transcribe false false env).modelInvoked = false) ∧
    ((transcribe true hasUrl env).usedUpload = true ∧
      (transcribe true hasUrl env).downloadTried = false) := by
  obtain ⟨ml, fo, w⟩ := env
  refine ⟨⟨rfl, rfl, rfl, rfl⟩, ?_⟩
  cases ml <;> cases w <;> exact ⟨rfl, rfl⟩

/-- C4: a /transcribe request with an audio_url whose fetch returns a
non-success status responds 500, the fetch raises before any temporary file
is written, and no temporary file remains. -/
theorem transcribe_fetch_failure (env : TranscribeEnv)
    (h : env.fetchOk = false) :
    download_audio_file env.fetchOk = .fetchError ∧
    (transcribe false true env).status = 500 ∧
    (transcribe false true env).tempCreated = false ∧
    (transcribe false true env).tempRemains = false := by
  simp [transcribe, download_audio_file, h]

theorem transcribe_fetch_failure_witness :
    download_audio_file (TranscribeEnv.mk true false none).fetchOk =
        .fetchError ∧
    (transcribe false true ⟨true, false, none⟩).status = 500 ∧
    (transcribe false true ⟨true, false, none⟩).tempCreated = false ∧
    (transcribe false true ⟨true, false, none⟩).tempRemains = false :=
  transcribe_fetch_failure ⟨true, false, none⟩ rfl

/-- C1 (counterexample): the claim that every created temporary file is
deleted before the handler returns on every failure path fails on the
model-not-loaded path: an upload request hitting the model-not-loaded check
gets the 500 response while its temporary file still exists. -/
theorem transcribe_temp_leak_cex :
    (transcribe true false ⟨false, true, none⟩).status = 500 ∧
    (transcribe true false ⟨false, true, none⟩).tempCreated = true ∧
    (transcribe true false ⟨false, true, none⟩).tempRemains = true :=
  ⟨rfl, rfl, rfl⟩

/-- C1 (amended): a temporary file created by a /transcribe request is
deleted before the handler returns on the success path and on the exception
path, but the model-not-loaded early return (500) performs no cleanup: a
temporary file remains after the request exactly when one was created and
the model was not loaded. -/
theorem transcribe_temp_cleanup (hasFile hasUrl : Bool)
    (env : TranscribeEnv) :
    (transcribe hasFile hasUrl env).tempRemains =
      ((transcribe hasFile hasUrl env).tempCreated && !env.modelLoaded) := by
  obtain ⟨ml, fo, w⟩ := env
  cases hasFile <;> cases hasUrl <;> cases ml <;> cases fo <;> cases w <;> rfl
